import Mathlib

/-
  Verification of the response-normalization and video-lookup core of the
  AI-Professor repository.

  Shallow embedding of:
    - ai_professor/services/gemini_service.py  (safe_json_parse, normalize_list,
      normalize_roadmap, the GeminiResponse construction in generate_topic_pack)
    - ai_professor/services/youtube_service.py (search_youtube_video)
  app.py contains textually identical copies of safe_json_parse /
  normalize_list / normalize_roadmap; the embedding below covers both.

  Python JSON values are modelled by the inductive JValue.  JSON floats are not
  modelled (numbers are integers); nothing in this development evaluates the
  parser on a float literal.  Python exceptions are modelled by PyErr.
-/

/-- A parsed JSON value as produced by Python json.loads: None, bool, int,
str, list, dict.  A dict is carried as its key/value list; lookups take the
last binding for a key, matching Python dict construction from duplicate
JSON keys. -/
inductive JValue where
  | jnull : JValue
  | jbool : Bool → JValue
  | jnum : Int → JValue
  | jstr : String → JValue
  | jarr : List JValue → JValue
  | jobj : List (String × JValue) → JValue
deriving Repr

/-- Python exceptions that the embedded code can raise. -/
inductive PyErr where
  | jsonDecodeError : PyErr
  | geminiServiceError : String → PyErr
  | youtubeServiceError : String → PyErr
  | attributeError : PyErr
  | typeError : PyErr
  | keyError : PyErr
  | indexError : PyErr
deriving DecidableEq, Repr

/-- Characters stripped by Python str.strip with no argument (ASCII range). -/
def pyIsSpace (c : Char) : Bool :=
  c == ' ' || c == '\t' || c == '\n' || c == '\r' || c == '\x0b' || c == '\x0c'

/-- Python str.strip(): remove leading and trailing whitespace. -/
def pyStrip (s : String) : String :=
  (((s.toList.dropWhile pyIsSpace).reverse.dropWhile pyIsSpace).reverse).asString

/-- Last-binding lookup in a dict field list (Python dict semantics under
duplicate keys: the last value wins). -/
def dictGet? : List (String × JValue) → String → Option JValue
  | [], _ => none
  | (k, v) :: fs, key =>
    match dictGet? fs key with
    | some v2 => some v2
    | none => if k = key then some v else none

/-- Python dict.get(key, default). -/
def dictGetD (fs : List (String × JValue)) (key : String) (d : JValue) : JValue :=
  (dictGet? fs key).getD d

/-- Keep first-occurrence order with last value for each key, as Python dict
construction does; used only for printing dicts. -/
def dedupPairs (fs : List (String × String)) : List (String × String) :=
  fs.foldl
    (fun acc p =>
      if acc.any (fun q => q.1 == p.1) then
        acc.map (fun q => if q.1 == p.1 then (q.1, p.2) else q)
      else acc ++ [p])
    []

mutual
/-- Structural size of a JSON value, used as fuel for printing; it strictly
exceeds the nesting depth. -/
def jSize : JValue → Nat
  | .jnull => 1
  | .jbool _ => 1
  | .jnum _ => 1
  | .jstr _ => 1
  | .jarr xs => 1 + jSizeList xs
  | .jobj fs => 1 + jSizeFields fs

/-- Combined size of the values in a list. -/
def jSizeList : List JValue → Nat
  | [] => 0
  | v :: vs => 1 + jSize v + jSizeList vs

/-- Combined size of the values in a field list. -/
def jSizeFields : List (String × JValue) → Nat
  | [] => 0
  | (_, v) :: fs => 1 + jSize v + jSizeFields fs
end

/-- Python repr of a JSON value, with fuel for the nested recursion.  The fuel
passed by pyRepr always exceeds the value's depth, so the 0 case is never
reached on actual values.  String repr quoting/escaping is simplified to
single quotes around the raw text. -/
def pyReprF : Nat → JValue → String
  | 0, _ => ""
  | Nat.succ _, .jnull => "None"
  | Nat.succ _, .jbool b => if b then "True" else "False"
  | Nat.succ _, .jnum n => toString n
  | Nat.succ _, .jstr s => "'" ++ s ++ "'"
  | Nat.succ fuel, .jarr xs =>
    "[" ++ String.intercalate ", " (xs.map (fun x => pyReprF fuel x)) ++ "]"
  | Nat.succ fuel, .jobj fs =>
    "\x7b" ++
      String.intercalate ", "
        ((dedupPairs (fs.map (fun p => (p.1, pyReprF fuel p.2)))).map
          (fun p => "'" ++ p.1 ++ "': " ++ p.2)) ++
      "\x7d"

/-- Python repr(v) for a JSON value. -/
def pyRepr (v : JValue) : String := pyReprF (jSize v) v

/-- Python str(v) for a JSON value: identity on strings, repr-style otherwise. -/
def pyStr : JValue → String
  | .jstr s => s
  | v => pyRepr v

/-- Python truthiness of a JSON value. -/
def pyTruthy : JValue → Bool
  | .jnull => false
  | .jbool b => b
  | .jnum n => n != 0
  | .jstr s => s != ""
  | .jarr xs => !xs.isEmpty
  | .jobj fs => !fs.isEmpty

/-- JSON whitespace accepted by json.loads between tokens. -/
def isJsonWs (c : Char) : Bool :=
  c == ' ' || c == '\t' || c == '\n' || c == '\r'

/-- Hex digit value for a \u escape. -/
def hexDigitVal (c : Char) : Option Nat :=
  if c.isDigit then some (c.toNat - 48)
  else if 'a' ≤ c && c ≤ 'f' then some (c.toNat - 87)
  else if 'A' ≤ c && c ≤ 'F' then some (c.toNat - 55)
  else none

/-- Numeric value of a digit run. -/
def digitsVal (ds : List Char) : Nat :=
  ds.foldl (fun a c => 10 * a + (c.toNat - 48)) 0

/-- A JSON integer digit run: nonempty, no leading zero (as json.loads
requires), and not followed by a fraction or exponent (floats unmodelled). -/
def parseDigits (cs : List Char) : Option (Nat × List Char) :=
  let ds := cs.takeWhile Char.isDigit
  let rest := cs.dropWhile Char.isDigit
  if ds.isEmpty then none
  else if 1 < ds.length && ds.headD ' ' == '0' then none
  else
    match rest with
    | '.' :: _ => none
    | 'e' :: _ => none
    | 'E' :: _ => none
    | _ => some (digitsVal ds, rest)

/-- A JSON integer literal with optional leading minus. -/
def parseIntLit (cs : List Char) : Option (Int × List Char) :=
  match cs with
  | '-' :: r =>
    match parseDigits r with
    | some (n, rest) => some (-(n : Int), rest)
    | none => none
  | _ =>
    match parseDigits cs with
    | some (n, rest) => some ((n : Int), rest)
    | none => none

/-- Body of a JSON string after the opening quote: escapes as json.loads
accepts them, raw control characters rejected (strict mode). -/
def parseStrBody : List Char → List Char → Option (String × List Char)
  | [], _ => none
  | '"' :: r, acc => some (acc.reverse.asString, r)
  | '\\' :: r, acc =>
    match r with
    | '"' :: r2 => parseStrBody r2 ('"' :: acc)
    | '\\' :: r2 => parseStrBody r2 ('\\' :: acc)
    | '/' :: r2 => parseStrBody r2 ('/' :: acc)
    | 'b' :: r2 => parseStrBody r2 ('\x08' :: acc)
    | 'f' :: r2 => parseStrBody r2 ('\x0c' :: acc)
    | 'n' :: r2 => parseStrBody r2 ('\n' :: acc)
    | 'r' :: r2 => parseStrBody r2 ('\r' :: acc)
    | 't' :: r2 => parseStrBody r2 ('\t' :: acc)
    | 'u' :: h1 :: h2 :: h3 :: h4 :: r2 =>
      match hexDigitVal h1, hexDigitVal h2, hexDigitVal h3, hexDigitVal h4 with
      | some d1, some d2, some d3, some d4 =>
        parseStrBody r2 (Char.ofNat (((d1 * 16 + d2) * 16 + d3) * 16 + d4) :: acc)
      | _, _, _, _ => none
    | _ => none
  | c :: r, acc => if c.toNat < 32 then none else parseStrBody r (c :: acc)

/-- Fuel-indexed JSON value reader.  mode 0 reads one value; mode 1 reads the
remaining items of an array after the opening bracket (first item next);
any other mode reads the remaining members of an object (first key next).
The fuel supplied by jsonLoads always suffices, so the 0 case is unreachable
on the calls jsonLoads makes. -/
def parseF : Nat → Nat → List Char → Option (JValue × List Char)
  | 0, _, _ => none
  | Nat.succ fuel, 0, cs =>
    match cs with
    | [] => none
    | 'n' :: 'u' :: 'l' :: 'l' :: r => some (.jnull, r)
    | 't' :: 'r' :: 'u' :: 'e' :: r => some (.jbool true, r)
    | 'f' :: 'a' :: 'l' :: 's' :: 'e' :: r => some (.jbool false, r)
    | '"' :: r =>
      match parseStrBody r [] with
      | some (s, rest) => some (.jstr s, rest)
      | none => none
    | '[' :: r =>
      match r.dropWhile isJsonWs with
      | ']' :: r3 => some (.jarr [], r3)
      | r2 => parseF fuel 1 r2
    | '\x7b' :: r =>
      match r.dropWhile isJsonWs with
      | '\x7d' :: r3 => some (.jobj [], r3)
      | r2 => parseF fuel 2 r2
    | c :: r =>
      if c == '-' || c.isDigit then
        match parseIntLit (c :: r) with
        | some (n, rest) => some (.jnum n, rest)
        | none => none
      else none
  | Nat.succ fuel, 1, cs =>
    match parseF fuel 0 cs with
    | none => none
    | some (v, rest) =>
      match rest.dropWhile isJsonWs with
      | ',' :: r3 =>
        match parseF fuel 1 (r3.dropWhile isJsonWs) with
        | some (.jarr vs, r4) => some (.jarr (v :: vs), r4)
        | _ => none
      | ']' :: r3 => some (.jarr [v], r3)
      | _ => none
  | Nat.succ fuel, _, cs =>
    match cs with
    | '"' :: r =>
      match parseStrBody r [] with
      | none => none
      | some (k, r1) =>
        match r1.dropWhile isJsonWs with
        | ':' :: r3 =>
          match parseF fuel 0 (r3.dropWhile isJsonWs) with
          | none => none
          | some (v, r4) =>
            match r4.dropWhile isJsonWs with
            | ',' :: r6 =>
              match parseF fuel 2 (r6.dropWhile isJsonWs) with
              | some (.jobj ms, r7) => some (.jobj ((k, v) :: ms), r7)
              | _ => none
            | '\x7d' :: r6 => some (.jobj [(k, v)], r6)
            | _ => none
        | _ => none
    | _ => none

/-- Model of Python json.loads: one JSON document with surrounding whitespace,
nothing trailing.  Returns none where json.loads raises JSONDecodeError. -/
def jsonLoads (s : String) : Option JValue :=
  match parseF (4 * s.length + 16) 0 (s.toList.dropWhile isJsonWs) with
  | some (v, rest) => if (rest.dropWhile isJsonWs).isEmpty then some v else none
  | none => none

/-- Model of one pass of
re.sub(r"^X(?:json)?|X$", "", cleaned, flags=re.MULTILINE) where X is three
backticks: at a line start, drop three backticks plus an optional immediate
json tag; elsewhere, drop three backticks that stand immediately before a
newline or at the end of the text; otherwise advance one character, exactly
as the regex engine scans.  The Bool argument tracks whether the current
position is a line start; fuel exceeds the input length so the 0 case is
never reached by stripCodeFences. -/
def fenceSubF : Nat → Bool → List Char → List Char
  | 0, _, cs => cs
  | Nat.succ fuel, lineStart, cs =>
    match cs with
    | [] => []
    | '\x60' :: '\x60' :: '\x60' :: rest =>
      if lineStart then
        match rest with
        | 'j' :: 's' :: 'o' :: 'n' :: rest2 => fenceSubF fuel false rest2
        | _ => fenceSubF fuel false rest
      else
        match rest with
        | [] => []
        | '\n' :: _ => fenceSubF fuel false rest
        | _ => '\x60' :: fenceSubF fuel false ('\x60' :: '\x60' :: rest)
    | '\n' :: rest => '\n' :: fenceSubF fuel true rest
    | c :: rest => c :: fenceSubF fuel false rest

/-- The code-fence removal applied by safe_json_parse. -/
def stripCodeFences (s : String) : String :=
  (fenceSubF (s.length + 1) true s.toList).asString

/-- The cleaned text of safe_json_parse: strip, remove fence markers, strip
again (gemini_service.py lines 110-111, app.py lines 186-187). -/
def cleanResponseText (text : String) : String :=
  pyStrip (stripCodeFences (pyStrip text))

/-- Index of the first occurrence of a character (Python str.find, with
Option standing for the -1 sentinel). -/
def strFindIdx (s : String) (c : Char) : Option Nat :=
  s.toList.findIdx? (fun d => d == c)

/-- Index of the last occurrence of a character (Python str.rfind). -/
def strRFindIdx (s : String) (c : Char) : Option Nat :=
  match s.toList.reverse.findIdx? (fun d => d == c) with
  | some i => some (s.toList.length - 1 - i)
  | none => none

/-- The substring cleaned[start : end+1] between the first opening brace and
the last closing brace, when start and end exist with end greater than
start (the guard at gemini_service.py line 118 / app.py line 193). -/
def braceSlice (cleaned : String) : Option String :=
  match strFindIdx cleaned '\x7b', strRFindIdx cleaned '\x7d' with
  | some st, some en =>
    if st < en then some (((cleaned.toList.drop st).take (en + 1 - st)).asString)
    else none
  | _, _ => none

/-- Model of _safe_json_parse (gemini_service.py lines 109-120) and of the
identical safe_json_parse (app.py lines 185-195): clean, strict parse, then
brace-substring fallback whose own parse failure propagates as
JSONDecodeError, and GeminiServiceError("Gemini returned invalid JSON
format.") when no brace pair is found. -/
def safe_json_parse (text : String) : Except PyErr JValue :=
  let cleaned := cleanResponseText text
  match jsonLoads cleaned with
  | some v => .ok v
  | none =>
    match braceSlice cleaned with
    | some sub =>
      match jsonLoads sub with
      | some v => .ok v
      | none => .error PyErr.jsonDecodeError
    | none => .error (PyErr.geminiServiceError "Gemini returned invalid JSON format.")

/-- Model of _normalize_list (gemini_service.py lines 123-128) and the
identical normalize_list (app.py lines 198-203).  A missing key reaches
this function as Python None, i.e. jnull. -/
def normalize_list : JValue → List String
  | .jarr xs =>
    xs.filterMap (fun item =>
      let s := pyStrip (pyStr item)
      if s = "" then none else some s)
  | .jstr s => if pyStrip s = "" then [] else [pyStrip s]
  | _ => []

/-- The roadmap record: the three canonical levels of the mini roadmap dict,
always all present. -/
structure Roadmap where
  Beginner : List String
  Intermediate : List String
  Advanced : List String
deriving DecidableEq, Repr

/-- Model of _normalize_roadmap (gemini_service.py lines 131-138) and the
identical normalize_roadmap (app.py lines 206-212). -/
def normalize_roadmap : JValue → Roadmap
  | .jobj fs =>
    { Beginner := normalize_list (dictGetD fs "Beginner" .jnull)
      Intermediate := normalize_list (dictGetD fs "Intermediate" .jnull)
      Advanced := normalize_list (dictGetD fs "Advanced" .jnull) }
  | _ => { Beginner := [], Intermediate := [], Advanced := [] }

/-- The GeminiResponse dataclass (gemini_service.py lines 20-30). -/
structure GeminiResponse where
  simple_explanation : String
  key_concepts : List String
  real_world_applications : List String
  diagram_mermaid : String
  prerequisites : List String
  what_to_learn_next : List String
  mini_roadmap : Roadmap
  suggested_projects : List String
  interview_questions : List String
deriving DecidableEq, Repr

/-- The GeminiResponse construction from a parsed payload (gemini_service.py
lines 96-106).  payload.get raises AttributeError when the payload is not a
dict; with a dict payload every field coercion is total. -/
def build_gemini_response (payload : JValue) : Except PyErr GeminiResponse :=
  match payload with
  | .jobj fs =>
    .ok
      { simple_explanation :=
          pyStr (dictGetD fs "simple_explanation" (.jstr "Explanation unavailable."))
        key_concepts := normalize_list (dictGetD fs "key_concepts" .jnull)
        real_world_applications :=
          normalize_list (dictGetD fs "real_world_applications" .jnull)
        diagram_mermaid := pyStr (dictGetD fs "diagram_mermaid" (.jstr ""))
        prerequisites := normalize_list (dictGetD fs "prerequisites" .jnull)
        what_to_learn_next := normalize_list (dictGetD fs "what_to_learn_next" .jnull)
        mini_roadmap := normalize_roadmap (dictGetD fs "mini_roadmap" .jnull)
        suggested_projects := normalize_list (dictGetD fs "suggested_projects" .jnull)
        interview_questions := normalize_list (dictGetD fs "interview_questions" .jnull) }
  | _ => .error PyErr.attributeError

/-- getattr(response, "text", ""): the provider response's text attribute,
with the empty string when the attribute is missing (gemini_service.py
line 94).  The attribute is modelled as an Option String. -/
def getattrText : Option String → String
  | some t => t
  | none => ""

/-- The response-handling tail of generate_topic_pack (gemini_service.py
lines 94-106): read the text attribute, parse it safely, coerce the payload
into a GeminiResponse.  Configuration and transport, which precede this
point in the source, are outside the modelled fragment. -/
def generate_topic_pack (response : Option String) : Except PyErr GeminiResponse :=
  match safe_json_parse (getattrText response) with
  | .error e => .error e
  | .ok payload => build_gemini_response payload

/-- Substring test used below: does the second list occur contiguously in the
first?  Start-of-list helper. -/
def charsStart : List Char → List Char → Bool
  | _, [] => true
  | [], _ :: _ => false
  | c :: cs, d :: ds => c == d && charsStart cs ds

/-- Contiguous-occurrence test over character lists. -/
def charsHasSub : List Char → List Char → Bool
  | [], ns => ns.isEmpty
  | c :: cs, ns => charsStart (c :: cs) ns || charsHasSub cs ns

/-- Python "needle in haystack" for strings. -/
def strHasSub (hay needle : String) : Bool :=
  charsHasSub hay.toList needle.toList

/-- Python value.get(key, default): only dicts have a get attribute. -/
def pyDictGetD : JValue → String → JValue → Except PyErr JValue
  | .jobj fs, key, d => .ok (dictGetD fs key d)
  | _, _, _ => .error PyErr.attributeError

/-- Python value[0]: list indexing, one-character string for a string, and
the errors the other types raise. -/
def pySubscript0 : JValue → Except PyErr JValue
  | .jarr (x :: _) => .ok x
  | .jarr [] => .error PyErr.indexError
  | .jstr s =>
    match s.toList with
    | c :: _ => .ok (.jstr ([c].asString))
    | [] => .error PyErr.indexError
  | .jobj _ => .error PyErr.keyError
  | _ => .error PyErr.typeError

/-- ASCII lowercase of one character, as Char.toLower maps it. -/
def pyLowerChar (c : Char) : Char :=
  if 'A' ≤ c && c ≤ 'Z' then Char.ofNat (c.toNat + 32) else c

/-- Python str.lower() restricted to its ASCII action, which is all the
classification substrings exercise. -/
def strLower (s : String) : String :=
  (s.toList.map pyLowerChar).asString

/-- Python value.lower(): a string method; any other receiver raises
AttributeError. -/
def pyLower : JValue → Except PyErr String
  | .jstr s => .ok (strLower s)
  | _ => .error PyErr.attributeError

/-- One video result of the lookup (the dict built at youtube_service.py
lines 61-65): raw videoId and title values plus the derived watch URL. -/
structure YTVideo where
  video_id : JValue
  title : JValue
  video_url : String

/-- Model of youtube_service.py lines 37-65: handling of the parsed response
body once transport succeeded.  A non-200 status inspects the structured
error body and always raises YouTubeServiceError (lines 37-50, with the
classification by substrings of the lowercased reason-or-message); a 200
status returns None for no items or a falsy videoId, and otherwise the
video dict with the derived watch URL (lines 52-65). -/
def yt_handle_response (status : Nat) (data : JValue) : Except PyErr (Option YTVideo) :=
  if status ≠ 200 then
    match pyDictGetD data "error" (.jobj []) with
    | .error e => .error e
    | .ok errv =>
      match pyDictGetD errv "message" (.jstr "YouTube API error") with
      | .error e => .error e
      | .ok message =>
        match pyDictGetD errv "errors" (.jarr []) with
        | .error e => .error e
        | .ok errors =>
          match
            (if pyTruthy errors then
              match pySubscript0 errors with
              | .error e => Except.error e
              | .ok first => pyDictGetD first "reason" (.jstr "")
            else .ok (.jstr "")) with
          | .error e => .error e
          | .ok reason =>
            let rm := if pyTruthy reason then reason else message
            match pyLower rm with
            | .error e => .error e
            | .ok rml =>
              if strHasSub rml "quota" then
                .error (PyErr.youtubeServiceError "YouTube API quota exceeded. Try again later.")
              else if strHasSub rml "keyinvalid" || strHasSub rml "api key" then
                .error (PyErr.youtubeServiceError "Invalid YouTube API key.")
              else
                .error (PyErr.youtubeServiceError ("YouTube API error: " ++ pyStr rm))
  else
    match pyDictGetD data "items" (.jarr []) with
    | .error e => .error e
    | .ok items =>
      if !pyTruthy items then .ok none
      else
        match pySubscript0 items with
        | .error e => .error e
        | .ok first =>
          match pyDictGetD first "id" (.jobj []) with
          | .error e => .error e
          | .ok idv =>
            match pyDictGetD idv "videoId" .jnull with
            | .error e => .error e
            | .ok videoId =>
              match pyDictGetD first "snippet" (.jobj []) with
              | .error e => .error e
              | .ok snippet =>
                match pyDictGetD snippet "title" (.jstr "") with
                | .error e => .error e
                | .ok title =>
                  if !pyTruthy videoId then .ok none
                  else
                    .ok (some
                      { video_id := videoId
                        title := title
                        video_url := "https://www.youtube.com/watch?v=" ++ pyStr videoId })

/-- The query parameters built at youtube_service.py lines 19-25. -/
structure YTParams where
  part : String
  q : String
  vtype : String
  maxResults : Nat
  key : String
deriving DecidableEq, Repr

/-- The request search_youtube_video sends for a topic and key. -/
def yt_request (topic key : String) : YTParams :=
  { part := "snippet", q := topic ++ " tutorial", vtype := "video",
    maxResults := 1, key := key }

/-- Outcome of the HTTP call: the three exception classes caught at
youtube_service.py lines 30-35, or a parsed response with its status. -/
inductive NetOutcome where
  | timeout : NetOutcome
  | connectionError : NetOutcome
  | requestError : String → NetOutcome
  | response : Nat → JValue → NetOutcome

/-- Model of search_youtube_video (youtube_service.py lines 13-65).  The
network is a function from the request to an outcome; an empty key returns
None before any request is formed.  The credential is a string, empty
meaning absent (Python falsiness of the key). -/
def search_youtube_video (topic key : String) (net : YTParams → NetOutcome) :
    Except PyErr (Option YTVideo) :=
  if key = "" then .ok none
  else
    match net (yt_request topic key) with
    | .timeout => .error (PyErr.youtubeServiceError "YouTube request timed out.")
    | .connectionError =>
      .error (PyErr.youtubeServiceError "Network error while contacting YouTube API.")
    | .requestError msg =>
      .error (PyErr.youtubeServiceError ("YouTube API request failed: " ++ msg))
    | .response status data => yt_handle_response status data

/-- Order-preserving trim-and-filter on a list of strings: each element is
trimmed, and elements that trim to the empty string are dropped. -/
def trim_filter (l : List String) : List String :=
  l.filterMap (fun s =>
    let t := pyStrip s
    if t = "" then none else some t)

/-- The list-of-string coercion as the (amended) spec words it: for a
sequence, the trimmed stringifications of the elements, keeping those that
are non-empty, in order; for a string that trims non-empty, that trimmed
string as a one-element sequence; otherwise the empty sequence.  This
definition follows the spec text and is compared against normalize_list,
which is translated from the source. -/
def spec_list_coercion : JValue → List String
  | .jarr xs =>
    (xs.map (fun item => pyStrip (pyStr item))).filter (fun s => s != "")
  | .jstr s => if pyStrip s != "" then [pyStrip s] else []
  | _ => []

/-- The roadmap coercion as the spec words it: a non-mapping yields the three
canonical keys with empty sequences; a mapping yields, for each canonical
key, the list-of-string coercion of the value found there, with missing
keys yielding empty sequences and any other keys ignored.  Compared against
normalize_roadmap, which is translated from the source. -/
def spec_roadmap_coercion : JValue → Roadmap
  | .jobj fs =>
    { Beginner :=
        match dictGet? fs "Beginner" with
        | some v => normalize_list v
        | none => []
      Intermediate :=
        match dictGet? fs "Intermediate" with
        | some v => normalize_list v
        | none => []
      Advanced :=
        match dictGet? fs "Advanced" with
        | some v => normalize_list v
        | none => [] }
  | _ => { Beginner := [], Intermediate := [], Advanced := [] }

/-- A payload that matches the documented schema: every field present with
its declared type (strings as strings, lists as lists of strings, the
roadmap as a mapping from the three canonical levels to lists of strings). -/
def schema_payload (se : String) (kc rwa : List String) (dm : String)
    (pre wtln rb ri ra sp iq : List String) : JValue :=
  .jobj
    [("simple_explanation", .jstr se),
     ("key_concepts", .jarr (kc.map .jstr)),
     ("real_world_applications", .jarr (rwa.map .jstr)),
     ("diagram_mermaid", .jstr dm),
     ("prerequisites", .jarr (pre.map .jstr)),
     ("what_to_learn_next", .jarr (wtln.map .jstr)),
     ("mini_roadmap", .jobj
        [("Beginner", .jarr (rb.map .jstr)),
         ("Intermediate", .jarr (ri.map .jstr)),
         ("Advanced", .jarr (ra.map .jstr))]),
     ("suggested_projects", .jarr (sp.map .jstr)),
     ("interview_questions", .jarr (iq.map .jstr))]

/-- str() is the identity on strings. -/
lemma pyStr_jstr (s : String) : pyStr (.jstr s) = s := rfl

/-- The source coercion agrees with the spec-worded coercion on every value. -/
lemma normalize_list_eq_spec (v : JValue) : normalize_list v = spec_list_coercion v := by
  cases v with
  | jnull => rfl
  | jbool b => rfl
  | jnum n => rfl
  | jobj fs => rfl
  | jstr s =>
    by_cases h : pyStrip s = "" <;> simp [normalize_list, spec_list_coercion, h]
  | jarr xs =>
    simp only [normalize_list, spec_list_coercion]
    induction xs with
    | nil => rfl
    | cons a t ih =>
      by_cases h : pyStrip (pyStr a) = "" <;>
        simp [List.filterMap_cons, List.filter_cons, h, ih]

/-- On a list of strings, the source coercion is exactly trim-and-filter. -/
lemma normalize_list_map_jstr (l : List String) :
    normalize_list (.jarr (l.map .jstr)) = trim_filter l := by
  simp only [normalize_list, trim_filter]
  induction l with
  | nil => rfl
  | cons a t ih =>
    by_cases h : pyStrip a = "" <;> simp [List.filterMap_cons, h, ih, pyStr_jstr]

/-- dict.get with a None default feeds normalize_list exactly the found value
or None. -/
lemma normalize_list_opt (fs : List (String × JValue)) (k : String) :
    normalize_list (dictGetD fs k .jnull) =
      (match dictGet? fs k with
       | some v => normalize_list v
       | none => ([] : List String)) := by
  unfold dictGetD
  cases dictGet? fs k <;> rfl

/-- Claim C1 (as corrected).  The normalizer cleans the text and tries a
strict parse, then the brace-substring fallback.  Part 1: every failure is
either the classified GeminiServiceError (the MalformedResponse kind) or a
raw JSONDecodeError — never anything else.  Part 2: when the strict parse
fails and no brace pair exists, the failure is the MalformedResponse kind.
Part 3: when the brace substring exists but itself fails to parse, the raw
JSONDecodeError propagates instead of the classified error.  Part 4: the
empty-string input yields the MalformedResponse kind. -/
theorem C1_theorem :
    (∀ text e, safe_json_parse text = .error e →
        e = PyErr.jsonDecodeError ∨
        e = PyErr.geminiServiceError "Gemini returned invalid JSON format.") ∧
    (∀ text, jsonLoads (cleanResponseText text) = none →
        braceSlice (cleanResponseText text) = none →
        safe_json_parse text =
          .error (PyErr.geminiServiceError "Gemini returned invalid JSON format.")) ∧
    (∀ text sub, jsonLoads (cleanResponseText text) = none →
        braceSlice (cleanResponseText text) = some sub →
        jsonLoads sub = none →
        safe_json_parse text = .error PyErr.jsonDecodeError) ∧
    safe_json_parse "" =
      .error (PyErr.geminiServiceError "Gemini returned invalid JSON format.") := by
  refine ⟨?_, ?_, ?_, rfl⟩
  · intro text e h
    simp only [safe_json_parse] at h
    split at h
    · exact absurd h (by simp)
    · split at h
      · split at h
        · exact absurd h (by simp)
        · left; injection h with h2; exact h2.symm
      · right; injection h with h2; exact h2.symm
  · intro text h1 h2
    simp [safe_json_parse, h1, h2]
  · intro text sub h1 h2 h3
    simp [safe_json_parse, h1, h2, h3]

/-- Claim C1 witness: the input consisting of an opening brace, a comma and a
closing brace exercises part 3 of the theorem at a concrete input. -/
theorem C1_witness : safe_json_parse "\x7b,\x7d" = .error PyErr.jsonDecodeError :=
  C1_theorem.2.2.1 "\x7b,\x7d" "\x7b,\x7d" rfl rfl rfl

/-- Claim C1 counterexample to the claim as stated: on the input consisting
of an opening brace, a comma and a closing brace, both parses fail, yet the
failure is the raw JSONDecodeError, not the MalformedResponse
classification the claim promises. -/
theorem C1_counterexample :
    safe_json_parse "\x7b,\x7d" = .error PyErr.jsonDecodeError ∧
    PyErr.jsonDecodeError ≠
      PyErr.geminiServiceError "Gemini returned invalid JSON format." :=
  ⟨rfl, by decide⟩

/-- Claim C2 (as corrected): for every input text whose top-level parse
succeeds with a JSON object, the normalization step raises nothing and
returns a fully populated record (its existence as a total GeminiResponse
value carries every field with its declared type). -/
theorem C2_theorem (text : String) (fs : List (String × JValue))
    (h : safe_json_parse text = .ok (.jobj fs)) :
    ∃ r : GeminiResponse, generate_topic_pack (some text) = .ok r := by
  simp only [generate_topic_pack, getattrText]
  rw [h]
  exact ⟨_, rfl⟩

/-- Claim C2 witness: the empty-object input parses and normalizes. -/
theorem C2_witness :
    ∃ r : GeminiResponse, generate_topic_pack (some "\x7b\x7d") = .ok r :=
  C2_theorem "\x7b\x7d" [] rfl

/-- Claim C2 counterexample to the claim as stated: the input text consisting
of the single digit three parses successfully to a non-object top-level
value, and the normalization step then raises AttributeError instead of
returning a record. -/
theorem C2_counterexample :
    safe_json_parse "3" = .ok (.jnum 3) ∧
    generate_topic_pack (some "3") = .error PyErr.attributeError :=
  ⟨rfl, rfl⟩

/-- Claim C3 (as corrected), for the two string fields: when the key is
present, the output field is the stringification of whatever value is found
there — including empty strings and non-string values; the fixed per-field
fallback ("Explanation unavailable." for the explanation, the empty string
for the diagram source) is used exactly when the key is absent. -/
theorem C3_theorem (fs : List (String × JValue)) :
    (∀ v, dictGet? fs "simple_explanation" = some v →
        (build_gemini_response (.jobj fs)).map GeminiResponse.simple_explanation =
          .ok (pyStr v)) ∧
    (dictGet? fs "simple_explanation" = none →
        (build_gemini_response (.jobj fs)).map GeminiResponse.simple_explanation =
          .ok "Explanation unavailable.") ∧
    (∀ v, dictGet? fs "diagram_mermaid" = some v →
        (build_gemini_response (.jobj fs)).map GeminiResponse.diagram_mermaid =
          .ok (pyStr v)) ∧
    (dictGet? fs "diagram_mermaid" = none →
        (build_gemini_response (.jobj fs)).map GeminiResponse.diagram_mermaid =
          .ok "") := by
  refine ⟨?_, ?_, ?_, ?_⟩
  · intro v h; simp [build_gemini_response, Except.map, dictGetD, h]
  · intro h; simp [build_gemini_response, Except.map, dictGetD, h, pyStr_jstr]
  · intro v h; simp [build_gemini_response, Except.map, dictGetD, h]
  · intro h; simp [build_gemini_response, Except.map, dictGetD, h, pyStr_jstr]

/-- Claim C3 witness: a present non-empty explanation string is kept as is. -/
theorem C3_witness :
    (build_gemini_response (.jobj [("simple_explanation", JValue.jstr "hi")])).map
        GeminiResponse.simple_explanation = .ok "hi" :=
  (C3_theorem _).1 (.jstr "hi") rfl

/-- Claim C3 counterexample to the claim as stated: a present empty-string
value is kept as the empty string, not replaced by the fixed fallback
sentence the claim promises for that case. -/
theorem C3_counterexample :
    (build_gemini_response (.jobj [("simple_explanation", JValue.jstr "")])).map
        GeminiResponse.simple_explanation = .ok "" ∧
    ("" : String) ≠ "Explanation unavailable." :=
  ⟨rfl, by decide⟩

/-- Claim C4 (as corrected): the source list coercion equals the spec-worded
coercion (trimmed stringifications of the elements that trim non-empty, in
order; a string value that trims non-empty wraps to a one-element list),
together with the documented examples: the string "Gradient Descent" wraps
to a one-element list — also through the full field coercion — and scalar
elements are stringified before the non-empty check. -/
theorem C4_theorem :
    (∀ v, normalize_list v = spec_list_coercion v) ∧
    normalize_list (.jstr "Gradient Descent") = ["Gradient Descent"] ∧
    (build_gemini_response (.jobj [("key_concepts", JValue.jstr "Gradient Descent")])).map
        GeminiResponse.key_concepts = .ok ["Gradient Descent"] ∧
    normalize_list (.jarr [.jnum 7, .jstr " a ", .jstr "  "]) = ["7", "a"] :=
  ⟨normalize_list_eq_spec, rfl, rfl, rfl⟩

/-- Claim C4 counterexample to the claim as stated: elements (and a wrapped
string value) are trimmed, so the sequence containing a space-padded string
comes out trimmed, not verbatim as the claim's wording asks. -/
theorem C4_counterexample :
    normalize_list (.jarr [JValue.jstr " x "]) = ["x"] ∧
    (["x"] : List String) ≠ [" x "] ∧
    normalize_list (.jstr " y ") = ["y"] ∧
    (["y"] : List String) ≠ [" y "] :=
  ⟨rfl, by decide, rfl, by decide⟩

/-- Claim C5 (confirmed): the roadmap coercion equals the spec-worded
coercion — a non-mapping yields the three canonical keys with empty lists,
a mapping yields the list coercion of each canonical key with missing keys
empty and extra keys ignored — together with the documented example and an
extra-key and a non-mapping instance. -/
theorem C5_theorem :
    (∀ v, normalize_roadmap v = spec_roadmap_coercion v) ∧
    normalize_roadmap (.jobj [("Beginner", .jarr [.jstr "Linear Algebra"])]) =
      { Beginner := ["Linear Algebra"], Intermediate := [], Advanced := [] } ∧
    normalize_roadmap (.jobj [("Beginner", .jarr [.jstr "Linear Algebra"]),
        ("Expert", .jarr [.jstr "Category Theory"])]) =
      { Beginner := ["Linear Algebra"], Intermediate := [], Advanced := [] } ∧
    normalize_roadmap (.jstr "not a mapping") =
      { Beginner := [], Intermediate := [], Advanced := [] } := by
  refine ⟨?_, rfl, rfl, rfl⟩
  intro v
  cases v with
  | jobj fs => simp only [normalize_roadmap, spec_roadmap_coercion, normalize_list_opt]
  | jnull => rfl
  | jbool b => rfl
  | jnum n => rfl
  | jstr s => rfl
  | jarr xs => rfl

/-- Claim C6 (as corrected): on every payload matching the documented schema,
the normalizer returns the input field by field, with the string fields
verbatim and every list field trimmed elementwise and filtered of elements
that trim to empty, in order. -/
theorem C6_theorem (se dm : String) (kc rwa pre wtln rb ri ra sp iq : List String) :
    build_gemini_response (schema_payload se kc rwa dm pre wtln rb ri ra sp iq) =
      .ok { simple_explanation := se,
            key_concepts := trim_filter kc,
            real_world_applications := trim_filter rwa,
            diagram_mermaid := dm,
            prerequisites := trim_filter pre,
            what_to_learn_next := trim_filter wtln,
            mini_roadmap := { Beginner := trim_filter rb,
                              Intermediate := trim_filter ri,
                              Advanced := trim_filter ra },
            suggested_projects := trim_filter sp,
            interview_questions := trim_filter iq } := by
  show Except.ok
      (GeminiResponse.mk (pyStr (.jstr se))
        (normalize_list (.jarr (kc.map .jstr)))
        (normalize_list (.jarr (rwa.map .jstr)))
        (pyStr (.jstr dm))
        (normalize_list (.jarr (pre.map .jstr)))
        (normalize_list (.jarr (wtln.map .jstr)))
        (Roadmap.mk (normalize_list (.jarr (rb.map .jstr)))
          (normalize_list (.jarr (ri.map .jstr)))
          (normalize_list (.jarr (ra.map .jstr))))
        (normalize_list (.jarr (sp.map .jstr)))
        (normalize_list (.jarr (iq.map .jstr)))) = _
  simp only [normalize_list_map_jstr, pyStr_jstr]

/-- Claim C6 counterexample to the claim as stated: a schema-conformant
payload whose key_concepts list holds a space-padded element is not
returned verbatim after filtering — the element comes out trimmed. -/
theorem C6_counterexample :
    (build_gemini_response
        (schema_payload "e" [" x "] [] "d" [] [] [] [] [] [] [])).map
      GeminiResponse.key_concepts = .ok ["x"] ∧
    (["x"] : List String) ≠ [" x "] :=
  ⟨rfl, by decide⟩

/-- Claim C7 (as corrected): on a non-200 status with a structured error body
carrying a message and a reason, the lookup classifies by the lowercased
reason-or-message (the reason when non-empty, else the message): a quota
substring gives the quota error, a keyinvalid or api key substring gives
the auth error — the substring is keyinvalid, not the claim's
"invalid key" — and anything else gives the generic error carrying the
reason-or-message.  Each raise is the YouTubeServiceError class. -/
theorem C7_theorem (reason message : String) (status : Nat) (h : status ≠ 200) :
    yt_handle_response status
      (.jobj [("error", .jobj [("message", .jstr message),
                               ("errors", .jarr [.jobj [("reason", .jstr reason)]])])]) =
      (let rm := if reason = "" then message else reason
       if strHasSub (strLower rm) "quota" then
         .error (PyErr.youtubeServiceError "YouTube API quota exceeded. Try again later.")
       else if strHasSub (strLower rm) "keyinvalid" || strHasSub (strLower rm) "api key" then
         .error (PyErr.youtubeServiceError "Invalid YouTube API key.")
       else .error (PyErr.youtubeServiceError ("YouTube API error: " ++ rm))) := by
  unfold yt_handle_response
  rw [if_pos h]
  by_cases hr : reason = ""
  · subst hr; rfl
  · have hb : (reason != "") = true := by simp [hr]
    simp [pyDictGetD, dictGetD, dictGet?, pyTruthy, pySubscript0, pyLower, pyStr_jstr,
      hb, hr]

/-- Claim C7 witness: an empty reason falls back to the message, and a quota
message classifies as the quota error. -/
theorem C7_witness :
    yt_handle_response 403
        (.jobj [("error", .jobj [("message", .jstr "quota exceeded"),
                                 ("errors", .jarr [.jobj [("reason", .jstr "")]])])]) =
      .error (PyErr.youtubeServiceError "YouTube API quota exceeded. Try again later.") := by
  exact C7_theorem "" "quota exceeded" 403 (by decide)

/-- Claim C7 counterexample to the claim as stated: a message reading
"invalid key" — which the claim says classifies as the auth failure — is
classified as the generic provider error, because the code matches the
substring keyinvalid, not "invalid key". -/
theorem C7_counterexample :
    yt_handle_response 403
        (.jobj [("error", .jobj [("message", .jstr "invalid key")])]) =
      .error (PyErr.youtubeServiceError "YouTube API error: invalid key") ∧
    PyErr.youtubeServiceError "YouTube API error: invalid key" ≠
      PyErr.youtubeServiceError "Invalid YouTube API key." :=
  ⟨rfl, by decide⟩

/-- Claim C8 (confirmed): on a 200 status, a missing or empty items list
yields none; a first item without a videoId yields none; a first item with
a non-empty videoId yields the video reference whose watch URL is derived
from the identifier, with the title taken from the snippet, or the empty
string when the snippet or title is absent. -/
theorem C8_theorem (vid t : String) (h : vid ≠ "") :
    yt_handle_response 200 (.jobj []) = .ok none ∧
    yt_handle_response 200 (.jobj [("items", .jarr [])]) = .ok none ∧
    yt_handle_response 200
        (.jobj [("items", .jarr
          [.jobj [("id", .jobj []), ("snippet", .jobj [("title", .jstr t)])]])]) =
      .ok none ∧
    yt_handle_response 200
        (.jobj [("items", .jarr
          [.jobj [("id", .jobj [("videoId", .jstr vid)]),
                  ("snippet", .jobj [("title", .jstr t)])]])]) =
      .ok (some { video_id := .jstr vid, title := .jstr t,
                  video_url := "https://www.youtube.com/watch?v=" ++ vid }) ∧
    yt_handle_response 200
        (.jobj [("items", .jarr [.jobj [("id", .jobj [("videoId", .jstr vid)])]])]) =
      .ok (some { video_id := .jstr vid, title := .jstr "",
                  video_url := "https://www.youtube.com/watch?v=" ++ vid }) := by
  have hb : (vid != "") = true := by simp [h]
  refine ⟨rfl, rfl, rfl, ?_, ?_⟩
  · simp [yt_handle_response, pyDictGetD, dictGetD, dictGet?, pyTruthy, pySubscript0,
      pyStr_jstr, hb]
  · simp [yt_handle_response, pyDictGetD, dictGetD, dictGet?, pyTruthy, pySubscript0,
      pyStr_jstr, hb]

/-- Claim C8 witness: a concrete identifier and title produce the derived
watch URL. -/
theorem C8_witness :
    yt_handle_response 200
        (.jobj [("items", .jarr
          [.jobj [("id", .jobj [("videoId", JValue.jstr "abc")]),
                  ("snippet", .jobj [("title", JValue.jstr "T")])]])]) =
      .ok (some { video_id := .jstr "abc", title := .jstr "T",
                  video_url := "https://www.youtube.com/watch?v=abc" }) := by
  have h := C8_theorem "abc" "T" (by decide)
  exact h.2.2.2.1

/-- Claim C9 (confirmed): with an absent (empty) credential the lookup
returns none immediately, for every topic and regardless of what any
network call would return — the result does not depend on the network
function, which models that no request is attempted. -/
theorem C9_theorem (topic : String) (net : YTParams → NetOutcome) :
    search_youtube_video topic "" net = .ok none := rfl

/-- Claim C10 (confirmed): a provider response without a text attribute is
read as the empty response text, and the call fails with the classified
MalformedResponse error (GeminiServiceError), not an attribute error. -/
theorem C10_theorem :
    generate_topic_pack none =
      .error (PyErr.geminiServiceError "Gemini returned invalid JSON format.") ∧
    generate_topic_pack none = generate_topic_pack (some "") :=
  ⟨rfl, rfl⟩
